import Mathlib

/-!
# Verification of the os161 synchronization primitives (kern/thread/synch.c)

Shallow embedding of the semaphore, lock and condition-variable operations of
`src/os161/kern/thread/synch.c`, and theorems settling the specification
claims about them.

Modelling conventions:

* An execution context ("thread", the C `curthread` pointer) is a `Nat`
  identity, passed explicitly as a parameter `t`.
* A C pointer argument is an `Option` value; `none` models the NULL pointer.
* `assert(e)` failing is the fault `Fault.assertFail`.  Dereferencing a NULL
  pointer without any assert (undefined behaviour, a crash but not an
  assertion) is the distinct fault `Fault.nullDeref`.
* The global `in_interrupt` flag is passed as an explicit `Int` parameter to
  the operations whose source reads it (or whose source comments discuss it).
* C `int` fields are modelled as unbounded `Int`; no claim depends on 32-bit
  overflow, and the counts involved are bounded by the number of threads.
* The interrupt-mask guard (`splhigh`/`splx`) makes each guarded region
  atomic on the single processor, so each operation is modelled as one
  atomic state transformation; the suspension points (`thread_sleep`) are
  where an operation is modelled as `blocked`/`suspended` instead.
* The set of contexts sleeping on a wait key is a `List Thread` parameter
  `sleepers`; diagnostic `name` strings are kept for fidelity.
* Allocation failure (`kmalloc`/`kstrdup` returning NULL) is an external
  nondeterministic event and is not modelled; the claims under study do not
  concern it.
-/

/-- Identity of an execution context (the C `curthread` pointer value). -/
abbrev Thread := Nat

/-- How a contract violation manifests: `assertFail` is a failing `assert()`
call; `nullDeref` is a dereference of a NULL handle with no assert at all. -/
inductive Fault where
  | assertFail : Fault
  | nullDeref : Fault
deriving DecidableEq, Repr

/-- Modelled from the spec: the wait/wake facility's `thread_wakeup(key)`
(`kern/thread/thread.c`, not under `src/`), which per the spec wakes **all**
contexts sleeping on the key ("wake all contexts sleeping on this
semaphore (not just one)").  Input: the contexts sleeping on the key;
output: (contexts woken, contexts still sleeping on the key). -/
def thread_wakeup (sleepers : List Thread) : List Thread × List Thread :=
  (sleepers, [])

/-- Modelled from the spec: the wait/wake facility's `thread_hassleepers(key)`
(`kern/thread/thread.c`, not under `src/`), the count of contexts currently
sleeping on the key (spec: `has_waiters(key)`, "used only by destroy-time
safety assertions"). -/
def thread_hassleepers (sleepers : List Thread) : Int :=
  sleepers.length

/-- Modelled from the spec: the generic FIFO queue collaborator's pop-head
operation `q_remhead` (`kern/lib/queue.c`, not under `src/`); the spec
describes it as "pop the head (oldest) entry".  `none` models the fatal
fault of popping an empty queue (the queue collaborator asserts the queue
is non-empty). -/
def q_remhead (q : List Thread) : Option (Thread × List Thread) :=
  match q with
  | [] => none
  | h :: rest => some (h, rest)

/-! ## Semaphore (synch.c lines 18-96) -/

/-- The `struct semaphore` of synch.c: diagnostic name and a C `int` count. -/
structure Semaphore where
  name : String
  count : Int
deriving DecidableEq, Repr

/-- Result of `sem_create` (synch.c:18-38): `assert(initial_count >= 0)`,
then a semaphore with `count = initial_count`.  (The allocation-failure
NULL returns are not modelled.) -/
def sem_create (namearg : String) (initial_count : Int) : Except Fault Semaphore :=
  if 0 ≤ initial_count then Except.ok ⟨namearg, initial_count⟩
  else Except.error Fault.assertFail

/-- The `sem_destroy` of synch.c:40-61: `assert(sem != NULL)`, then under the
guard `assert(thread_hassleepers(sem)==0)`, then free. -/
def sem_destroy (sem : Option Semaphore) (sleepers : List Thread) : Except Fault Unit :=
  match sem with
  | none => Except.error Fault.assertFail
  | some _ =>
    if thread_hassleepers sleepers = 0 then Except.ok ()
    else Except.error Fault.assertFail

/-- Outcome of one call to `P`: a failed assert, a suspension on the
semaphore's wait key (count is zero, `thread_sleep(sem)` inside the while
loop; the woken context re-enters the same check), or completion with the
decremented semaphore. -/
inductive POutcome where
  | fault : POutcome
  | blocked : POutcome
  | completed : Semaphore → POutcome
deriving DecidableEq, Repr

/-- The `P` of synch.c:63-84.  In source order: `assert(sem != NULL)`;
`assert(in_interrupt==0)`; then under the guard `while (sem->count==0)
thread_sleep(sem)`, `assert(sem->count>0)`, `sem->count--`.  One call is
modelled as one pass through the guarded region: `blocked` is the
`thread_sleep` inside the loop (the resumed context re-runs the check). -/
def P (in_interrupt : Int) (sem : Option Semaphore) : POutcome :=
  match sem with
  | none => POutcome.fault
  | some s =>
    if in_interrupt ≠ 0 then POutcome.fault
    else if s.count = 0 then POutcome.blocked
    else if 0 < s.count then POutcome.completed ⟨s.name, s.count - 1⟩
    else POutcome.fault

/-- The `V` of synch.c:86-96: `assert(sem != NULL)`; under the guard
`sem->count++`, `assert(sem->count>0)`, `thread_wakeup(sem)`.  Returns the
updated semaphore, the woken contexts and the contexts still sleeping on
the semaphore's key. -/
def V (sem : Option Semaphore) (sleepers : List Thread) :
    Except Fault (Semaphore × List Thread × List Thread) :=
  match sem with
  | none => Except.error Fault.assertFail
  | some s =>
    if 0 < s.count + 1 then
      Except.ok (⟨s.name, s.count + 1⟩, thread_wakeup sleepers)
    else Except.error Fault.assertFail

/-! ## Lock (synch.c lines 103-189) -/

/-- The `struct lock` of synch.c: `lock_occupied` is the C `int` flag
(0 or 1 as written by the source), `lock_holder` the owning thread pointer
(`none` models NULL). -/
structure Lock where
  name : String
  lock_occupied : Int
  lock_holder : Option Thread
deriving DecidableEq, Repr

/-- The `lock_create` of synch.c:103-123: a fresh lock with
`lock_occupied = 0` and `lock_holder = NULL`.  (Allocation failure not
modelled.) -/
def lock_create (name : String) : Lock :=
  ⟨name, 0, none⟩

/-- The `lock_destroy` of synch.c:125-133: `assert(lock != NULL)`, then free
unconditionally.  Note the source performs no check of `lock_occupied` or of
sleepers before freeing. -/
def lock_destroy (lock : Option Lock) : Except Fault Unit :=
  match lock with
  | none => Except.error Fault.assertFail
  | some _ => Except.ok ()

/-- Outcome of one call to `lock_acquire`: failed assert, suspension on the
lock's wait key, or completion with the updated lock. -/
inductive AcquireOutcome where
  | fault : AcquireOutcome
  | blocked : AcquireOutcome
  | completed : Lock → AcquireOutcome
deriving DecidableEq, Repr

/-- The `lock_acquire` of synch.c:135-160: `assert(lock != NULL)`; the
`assert(in_interrupt==0)` present in `P` is commented out in this function
(synch.c:144), so the `in_interrupt` parameter is read by no code path;
then under the guard `while (lock->lock_occupied == 1 && lock->lock_holder
!= curthread) thread_sleep(lock)`, and on loop exit `lock_occupied = 1`,
`lock_holder = curthread`.  As with `P`, `blocked` models the
`thread_sleep` inside the loop. -/
def lock_acquire (in_interrupt : Int) (t : Thread) (lock : Option Lock) : AcquireOutcome :=
  match lock with
  | none => AcquireOutcome.fault
  | some l =>
    if l.lock_occupied = 1 ∧ l.lock_holder ≠ some t then AcquireOutcome.blocked
    else AcquireOutcome.completed ⟨l.name, 1, some t⟩

/-- The `lock_release` of synch.c:162-181: `assert(lock != NULL)`; under the
guard `lock_occupied = 0`, `lock_holder = NULL`, `thread_wakeup(lock)`.
The caller identity `t` is read by no code path: the source performs no
ownership check.  Returns the updated lock, the woken contexts and the
contexts still sleeping on the lock's key. -/
def lock_release (t : Thread) (lock : Option Lock) (sleepers : List Thread) :
    Except Fault (Lock × List Thread × List Thread) :=
  match lock with
  | none => Except.error Fault.assertFail
  | some l => Except.ok (⟨l.name, 0, none⟩, thread_wakeup sleepers)

/-- The `lock_do_i_hold` of synch.c:183-189: `return (lock->lock_holder ==
curthread)` with no `assert(lock != NULL)` — a NULL handle is dereferenced
directly, modelled as `Fault.nullDeref`. -/
def lock_do_i_hold (t : Thread) (lock : Option Lock) : Except Fault Bool :=
  match lock with
  | none => Except.error Fault.nullDeref
  | some l => Except.ok (l.lock_holder == some t)

/-! ## Condition variable (synch.c lines 196-323) -/

/-- The `struct cv` of synch.c: diagnostic name, the waiting-count `count`
(a C `int`, so it can go negative) and the explicit FIFO waiter queue
`thread_queue` (head = oldest waiter). -/
structure CV where
  name : String
  count : Int
  thread_queue : List Thread
deriving DecidableEq, Repr

/-- The `cv_create` of synch.c:196-219: `count = 0` and a fresh empty queue.
(Allocation failure not modelled; `q_create(1)` is a capacity hint with no
observable effect on the list model.) -/
def cv_create (name : String) : CV :=
  ⟨name, 0, []⟩

/-- The `cv_destroy` of synch.c:221-237: `assert(cv != NULL)`,
`assert(cv->count == 0)`, `assert(q_empty(cv->thread_queue))`, then free. -/
def cv_destroy (cv : Option CV) : Except Fault Unit :=
  match cv with
  | none => Except.error Fault.assertFail
  | some c =>
    if c.count = 0 ∧ c.thread_queue = [] then Except.ok ()
    else Except.error Fault.assertFail

/-- Outcome of one call to `cv_wait`, modelled up to its suspension point
`thread_sleep(curthread)` (synch.c:265): failed assert, or suspension
carrying the updated cv, the released paired lock, and the contexts woken
by the internal `lock_release`.  The reacquisition on resume is the
ordinary `lock_acquire` at synch.c:267 and is modelled by that function. -/
inductive WaitOutcome where
  | fault : WaitOutcome
  | suspended : CV → Lock → List Thread → WaitOutcome
deriving DecidableEq, Repr

/-- The `cv_wait` of synch.c:239-273.  In source order: `assert(cv != NULL)`,
`assert(lock != NULL)`, `assert(lock_do_i_hold(lock))`,
`assert(in_interrupt == 0)`; then under the guard `lock_release(lock)`,
`cv->count++`, `q_addtail(cv->thread_queue, curthread)`,
`thread_sleep(curthread)`.  (`q_preallocate` is a capacity hint with no
observable effect on the list model.) -/
def cv_wait (in_interrupt : Int) (t : Thread) (cv : Option CV) (lock : Option Lock)
    (lockSleepers : List Thread) : WaitOutcome :=
  match cv, lock with
  | none, _ => WaitOutcome.fault
  | some _, none => WaitOutcome.fault
  | some c, some l =>
    match lock_do_i_hold t (some l) with
    | Except.ok true =>
      if in_interrupt ≠ 0 then WaitOutcome.fault
      else
        match lock_release t (some l) lockSleepers with
        | Except.error _ => WaitOutcome.fault
        | Except.ok (l', woken, _) =>
          WaitOutcome.suspended ⟨c.name, c.count + 1, c.thread_queue ++ [t]⟩ l' woken
    | _ => WaitOutcome.fault

/-- The `cv_signal` of synch.c:275-300: `assert(cv != NULL)`,
`assert(lock != NULL)`, `assert(lock_do_i_hold(lock))`; then under the guard
`cv->count--`, `next_thread = q_remhead(cv->thread_queue)`,
`thread_wakeup(next_thread)` (each waiter sleeps on its own thread pointer,
so this wakes exactly that context).  There is no check of `cv->count` or of
queue emptiness: on an empty queue the `q_remhead` collaborator faults (in
the C the decrement of `count` has already happened at that point, but the
fault halts the kernel so no state is observable after it).  Returns the
updated cv, the (unmodified) paired lock and the woken context. -/
def cv_signal (t : Thread) (cv : Option CV) (lock : Option Lock) :
    Except Fault (CV × Lock × Thread) :=
  match cv, lock with
  | none, _ => Except.error Fault.assertFail
  | some _, none => Except.error Fault.assertFail
  | some c, some l =>
    match lock_do_i_hold t (some l) with
    | Except.ok true =>
      match q_remhead c.thread_queue with
      | none => Except.error Fault.assertFail
      | some (next_thread, rest) =>
        Except.ok (⟨c.name, c.count - 1, rest⟩, l, next_thread)
    | _ => Except.error Fault.assertFail

/-- Helper for the termination of the broadcast loop: a successful
`cv_signal` decrements `count` by exactly one. -/
lemma cv_signal_ok_count {t : Thread} {c : CV} {l : Lock} {c' : CV} {l' : Lock}
    {nt : Thread} (h : cv_signal t (some c) (some l) = Except.ok (c', l', nt)) :
    c'.count = c.count - 1 := by
  cases hb : (l.lock_holder == some t) with
  | false => simp [cv_signal, lock_do_i_hold, hb] at h
  | true =>
    cases hq : c.thread_queue with
    | nil => simp [cv_signal, lock_do_i_hold, q_remhead, hb, hq] at h
    | cons x rest =>
      simp [cv_signal, lock_do_i_hold, q_remhead, hb, hq] at h
      rw [← h.1]

/-- The `while (cv->count > 0) cv_signal(cv, lock);` loop of `cv_broadcast`
(synch.c:310-315), returning the final cv and the list of woken contexts in
wake order.  A fault inside `cv_signal` aborts the loop with that fault. -/
def cv_broadcastLoop (t : Thread) (l : Lock) (c : CV) : Except Fault (CV × List Thread) :=
  if h0 : 0 < c.count then
    match hs : cv_signal t (some c) (some l) with
    | Except.error f => Except.error f
    | Except.ok (c', _, nt) =>
      match cv_broadcastLoop t l c' with
      | Except.error f => Except.error f
      | Except.ok (c'', ws) => Except.ok (c'', nt :: ws)
  else Except.ok (c, [])
termination_by c.count.toNat
decreasing_by
  have hc := cv_signal_ok_count hs
  simp_wf
  omega

/-- The `cv_broadcast` of synch.c:302-323: `assert(cv != NULL)`,
`assert(lock != NULL)`, `assert(lock_do_i_hold(lock))`; then the signal
loop; then `assert(cv->count == 0)` and `assert(q_empty(cv->thread_queue))`.
Returns the final cv, the (unmodified) paired lock and the woken contexts
in wake order. -/
def cv_broadcast (t : Thread) (cv : Option CV) (lock : Option Lock) :
    Except Fault (CV × Lock × List Thread) :=
  match cv, lock with
  | none, _ => Except.error Fault.assertFail
  | some _, none => Except.error Fault.assertFail
  | some c, some l =>
    match lock_do_i_hold t (some l) with
    | Except.ok true =>
      match cv_broadcastLoop t l c with
      | Except.error f => Except.error f
      | Except.ok (c', ws) =>
        if c'.count = 0 ∧ c'.thread_queue = [] then Except.ok (c', l, ws)
        else Except.error Fault.assertFail
    | _ => Except.error Fault.assertFail

/-! ## Trace model for semaphore conservation (claim about interleaved P/V) -/

/-- A completed semaphore operation in an interleaved history. -/
inductive SemOp where
  | P : SemOp
  | V : SemOp
deriving DecidableEq, Repr

/-- Effect of one completed operation on the count, following `P` and `V`
above: a `P` completes only by falling out of the `while (sem->count==0)`
loop (count nonzero) and past `assert(sem->count>0)`, then decrements;
`none` means the operation cannot complete at this count (the caller is
still blocked, or the assert fired).  A `V` always increments. -/
def semStep (count : Int) : SemOp → Option Int
  | SemOp.P =>
    if count = 0 then none
    else if 0 < count then some (count - 1)
    else none
  | SemOp.V => some (count + 1)

/-- Run a sequence of completed operations from a starting count; `none` if
some operation in the sequence could not have completed there. -/
def semRun : Int → List SemOp → Option Int
  | c, [] => some c
  | c, op :: ops =>
    match semStep c op with
    | none => none
    | some c' => semRun c' ops

/-- Number of completed `P` operations in a history. -/
def numP (ops : List SemOp) : Nat := ops.count SemOp.P

/-- Number of completed `V` operations in a history. -/
def numV (ops : List SemOp) : Nat := ops.count SemOp.V

/-- Conservation along any realizable history: from a non-negative count,
every reachable count is non-negative and equals the start plus completed
`V`s minus completed `P`s. -/
lemma semRun_conservation (ops : List SemOp) : ∀ c0 c : Int, 0 ≤ c0 →
    semRun c0 ops = some c →
    0 ≤ c ∧ c = c0 + (numV ops : Int) - (numP ops : Int) := by
  induction ops with
  | nil =>
    intro c0 c h0 hr
    simp [semRun] at hr
    subst hr
    simp [numV, numP]
    exact h0
  | cons op ops ih =>
    intro c0 c h0 hr
    cases op with
    | P =>
      simp only [semRun, semStep] at hr
      by_cases hz : c0 = 0
      · simp [hz] at hr
      · rw [if_neg hz] at hr
        by_cases hp : 0 < c0
        · rw [if_pos hp] at hr
          simp only [] at hr
          have h1 : 0 ≤ c0 - 1 := by omega
          obtain ⟨ha, hb⟩ := ih (c0 - 1) c h1 hr
          refine ⟨ha, ?_⟩
          simp [numV, numP, List.count_cons] at hb ⊢
          omega
        · rw [if_neg hp] at hr
          simp at hr
    | V =>
      simp only [semRun, semStep] at hr
      obtain ⟨ha, hb⟩ := ih (c0 + 1) c (by omega) hr
      refine ⟨ha, ?_⟩
      simp [numV, numP, List.count_cons] at hb ⊢
      omega

/-! ## Claim theorems -/

/-- Claim C1, counterexample: the claim says a release by a context that is
not the owner is a fatal fault; in the code, thread 2 releasing a lock held
by thread 1 is no fault at all — it succeeds, clears the lock and wakes the
sleepers. -/
theorem c1_release_by_nonowner_no_fault :
    lock_release 2 (some ⟨"L", 1, some 1⟩) [] =
      Except.ok (⟨"L", 0, none⟩, [], []) := rfl

/-- Claim C1, amended: `lock_release` performs no ownership check.  For
every caller (owner or not) and every non-null lock, it clears
`lock_occupied`/`lock_holder` and wakes all contexts sleeping on the
lock. -/
theorem c1_lock_release_clears_and_wakes_all (t : Thread) (l : Lock)
    (sleepers : List Thread) :
    lock_release t (some l) sleepers =
      Except.ok (⟨l.name, 0, none⟩, sleepers, []) := rfl

/-- Claim C3, counterexample: the claim says destroying a currently held
lock is a fatal fault; in the code, destroying a lock held by thread 1
succeeds (it frees the lock with no held-check). -/
theorem c3_destroy_held_lock_no_fault :
    lock_destroy (some ⟨"L", 1, some 1⟩) = Except.ok () := rfl

/-- Claim C3, amended: `lock_destroy` asserts only that the handle is
non-null; it frees the lock whether or not it is held (no held-check is
performed), and faults only on a NULL handle. -/
theorem c3_lock_destroy_frees_regardless_of_held (l : Lock) :
    lock_destroy (some l) = Except.ok () ∧
      lock_destroy (none : Option Lock) = Except.error Fault.assertFail :=
  ⟨rfl, rfl⟩

/-- Helper: a successful `cv_signal` by the lock holder on a non-empty
waiter queue decrements the count, pops the FIFO head and wakes it, leaving
the paired lock untouched. -/
lemma cv_signal_pops (t h : Thread) (rest : List Thread) (c : CV) (l : Lock)
    (hq : c.thread_queue = h :: rest) (hold : l.lock_holder = some t) :
    cv_signal t (some c) (some l) =
      Except.ok (⟨c.name, c.count - 1, rest⟩, l, h) := by
  simp [cv_signal, lock_do_i_hold, q_remhead, hq, hold]

/-- Claim C2, counterexample: the claim says `cv_signal` with
`waiting_count == 0` is a no-op leaving the count and queue unchanged; in
the code there is no such guard — with zero waiters (count 0, empty queue)
and the caller holding the paired lock, the call is a fatal fault
(`cv->count--` runs unconditionally and `q_remhead` pops the empty
queue), not a no-op. -/
theorem c2_signal_no_waiters_not_noop :
    cv_signal 1 (some ⟨"cv", 0, []⟩) (some ⟨"L", 1, some 1⟩) =
      Except.error Fault.assertFail := rfl

/-- Claim C2, amended: `cv_signal` performs no zero-waiter check.  For
every call by a context holding the paired lock with at least one waiter
queued, it decrements `count` by exactly one, removes the head (oldest)
entry of the FIFO waiter queue and wakes that specific context; with no
waiters the call is not a no-op but a fatal fault (unconditional decrement,
then a pop of the empty queue). -/
theorem c2_cv_signal_pops_fifo_head (t h : Thread) (rest : List Thread)
    (c : CV) (l : Lock) (hq : c.thread_queue = h :: rest)
    (hold : l.lock_holder = some t) :
    cv_signal t (some c) (some l) =
      Except.ok (⟨c.name, c.count - 1, rest⟩, l, h) :=
  cv_signal_pops t h rest c l hq hold

/-- Witness for the amended C2 at a concrete state: cv with waiters
`[4, 5]` and count 2, lock held by thread 1. -/
theorem c2_cv_signal_pops_fifo_head_witness :
    cv_signal 1 (some ⟨"cv", 2, [4, 5]⟩) (some ⟨"L", 1, some 1⟩) =
      Except.ok (⟨"cv", 1, [5]⟩, ⟨"L", 1, some 1⟩, 4) :=
  c2_cv_signal_pops_fifo_head 1 4 [5] ⟨"cv", 2, [4, 5]⟩ ⟨"L", 1, some 1⟩ rfl rfl

/-- Claim C4 (code bug): evaluating the code at the failing input.  The
source keeps the `assert(in_interrupt==0)` of the blocking operations in
`P` (synch.c:75) and `cv_wait` (synch.c:253), but in `lock_acquire` the
same check is commented out (synch.c:144) although the comment directly
above it announces "Do the same check that we do w/ semaphores".
Consequently with `in_interrupt = 1` a `P` faults and a `cv_wait` faults,
but a `lock_acquire` on a free lock completes with no fault at all. -/
theorem c4_lock_acquire_in_interrupt_no_fault :
    lock_acquire 1 0 (some (lock_create "L")) =
        AcquireOutcome.completed ⟨"L", 1, some 0⟩ ∧
      P 1 (some ⟨"s", 1⟩) = POutcome.fault ∧
      cv_wait 1 0 (some ⟨"cv", 0, []⟩) (some ⟨"L", 1, some 0⟩) [] =
        WaitOutcome.fault :=
  ⟨rfl, rfl, rfl⟩

/-- Claim C5, counterexample: the claim says a null handle is a fatal
programming error raised by an assertion in every primitive operation; in
`lock_do_i_hold` there is no `assert(lock != NULL)` at all — the NULL
handle is dereferenced directly (a crash, not an assertion). -/
theorem c5_do_i_hold_null_not_assert :
    lock_do_i_hold 0 none = Except.error Fault.nullDeref ∧
      (Except.error Fault.nullDeref : Except Fault Bool) ≠
        Except.error Fault.assertFail :=
  ⟨rfl, by simp⟩

/-- Claim C5, amended: every primitive operation that takes a handle raises
a fatal assertion on a NULL handle — except `lock_do_i_hold`, which
performs no null check and dereferences the NULL pointer directly. -/
theorem c5_null_handle_asserts_except_do_i_hold (ii : Int) (t : Thread)
    (sleepers : List Thread) (c : CV) (l : Lock) :
    sem_destroy none sleepers = Except.error Fault.assertFail ∧
      P ii none = POutcome.fault ∧
      V none sleepers = Except.error Fault.assertFail ∧
      lock_destroy none = Except.error Fault.assertFail ∧
      lock_acquire ii t none = AcquireOutcome.fault ∧
      lock_release t none sleepers = Except.error Fault.assertFail ∧
      cv_destroy none = Except.error Fault.assertFail ∧
      cv_wait ii t none (some l) sleepers = WaitOutcome.fault ∧
      cv_wait ii t (some c) none sleepers = WaitOutcome.fault ∧
      cv_signal t none (some l) = Except.error Fault.assertFail ∧
      cv_signal t (some c) none = Except.error Fault.assertFail ∧
      cv_broadcast t none (some l) = Except.error Fault.assertFail ∧
      cv_broadcast t (some c) none = Except.error Fault.assertFail ∧
      lock_do_i_hold t none = Except.error Fault.nullDeref :=
  ⟨rfl, rfl, rfl, rfl, rfl, rfl, rfl, rfl, rfl, rfl, rfl, rfl, rfl, rfl⟩

/-- Claim C6: semaphore conservation.  For any semaphore created with a
non-negative initial count and any realizable interleaved history of
completed `P`/`V` operations, the count never goes negative and at every
quiescent point equals the initial count plus completed `V`s minus
completed `P`s. -/
theorem c6_sem_conservation (nm : String) (n : Int) (s : Semaphore)
    (ops : List SemOp) (c : Int) (hc : sem_create nm n = Except.ok s)
    (hr : semRun s.count ops = some c) :
    0 ≤ c ∧ c = s.count + (numV ops : Int) - (numP ops : Int) := by
  have h0 : 0 ≤ s.count := by
    unfold sem_create at hc
    split at hc
    · injection hc with hc
      rw [← hc]
      assumption
    · exact absurd hc (by simp)
  exact semRun_conservation ops s.count c h0 hr

/-- Witness for C6: semaphore created with count 1, history `[V, P, P]`,
final count 0 = 1 + 1 - 2. -/
theorem c6_sem_conservation_witness :
    0 ≤ (0 : Int) ∧
      (0 : Int) = (⟨"s", 1⟩ : Semaphore).count +
        (numV [SemOp.V, SemOp.P, SemOp.P] : Int) -
        (numP [SemOp.V, SemOp.P, SemOp.P] : Int) :=
  c6_sem_conservation "s" 1 ⟨"s", 1⟩ [SemOp.V, SemOp.P, SemOp.P] 0 rfl rfl

/-- Claim C7: a lock-acquire caller sleeps exactly while the lock is held
by a different context; a context that already holds the lock does not
block; and any completed acquire leaves the lock occupied with the caller
as holder. -/
theorem c7_lock_acquire_owner_no_block (ii : Int) (t : Thread) (l : Lock) :
    (lock_acquire ii t (some l) = AcquireOutcome.blocked ↔
      l.lock_occupied = 1 ∧ l.lock_holder ≠ some t) ∧
    (l.lock_holder = some t →
      lock_acquire ii t (some l) =
        AcquireOutcome.completed ⟨l.name, 1, some t⟩) ∧
    (∀ l', lock_acquire ii t (some l) = AcquireOutcome.completed l' →
      l'.lock_occupied = 1 ∧ l'.lock_holder = some t) := by
  by_cases h : l.lock_occupied = 1 ∧ l.lock_holder ≠ some t
  · refine ⟨by simp [lock_acquire, h], ?_, ?_⟩
    · intro ht
      exact absurd ht h.2
    · intro l' hl'
      simp [lock_acquire, h] at hl'
  · refine ⟨by simp [lock_acquire, h], ?_, ?_⟩
    · intro ht
      simp [lock_acquire, h]
    · intro l' hl'
      simp [lock_acquire, h] at hl'
      rw [← hl']
      exact ⟨rfl, rfl⟩

/-- Witness for C7: thread 1 re-acquiring the lock it already holds
completes immediately (does not block). -/
theorem c7_lock_acquire_owner_no_block_witness :
    lock_acquire 0 1 (some ⟨"L", 1, some 1⟩) =
      AcquireOutcome.completed ⟨"L", 1, some 1⟩ :=
  (c7_lock_acquire_owner_no_block 0 1 ⟨"L", 1, some 1⟩).2.1 rfl

/-- Claim C8: `V` increments the count by exactly one and then wakes all
contexts sleeping on the semaphore (a broadcast, not a single targeted
wake).  The hypothesis `0 ≤ s.count` is the semaphore invariant, under
which the internal `assert(sem->count>0)` after the increment passes. -/
theorem c8_V_increments_and_wakes_all (s : Semaphore) (sleepers : List Thread)
    (h : 0 ≤ s.count) :
    V (some s) sleepers = Except.ok (⟨s.name, s.count + 1⟩, sleepers, []) := by
  have hpos : (0 : Int) < s.count + 1 := by omega
  simp [V, thread_wakeup, hpos]

/-- Witness for C8: `V` on a semaphore with count 0 and sleepers `[3, 4]`
yields count 1 and wakes both sleepers. -/
theorem c8_V_increments_and_wakes_all_witness :
    V (some ⟨"s", 0⟩) [3, 4] = Except.ok (⟨"s", 1⟩, [3, 4], []) :=
  c8_V_increments_and_wakes_all ⟨"s", 0⟩ [3, 4] (by decide)

/-- Helper: the broadcast loop, launched by a context holding the paired
lock on a cv satisfying the cv invariant `count = length(queue)`, drains
the entire waiter queue, waking its members one at a time in FIFO order. -/
lemma cv_broadcastLoop_drains (t : Thread) (l : Lock)
    (hold : l.lock_holder = some t) :
    ∀ q : List Thread, ∀ c : CV, c.thread_queue = q →
      c.count = (q.length : Int) →
      cv_broadcastLoop t l c = Except.ok (⟨c.name, 0, []⟩, q) := by
  intro q
  induction q with
  | nil =>
    intro c hq hc
    unfold cv_broadcastLoop
    rw [dif_neg (by rw [hc]; simp)]
    cases c with
    | mk nm cnt tq =>
      simp at hq hc ⊢
      exact ⟨hc, hq⟩
  | cons x rest ih =>
    intro c hq hc
    have hsig := cv_signal_pops t x rest c l hq hold
    have hcnt : 0 < c.count := by
      rw [hc]
      simp
    unfold cv_broadcastLoop
    rw [dif_pos hcnt]
    split
    · rename_i f heq
      rw [hsig] at heq
      cases heq
    · rename_i c' l2 nt heq
      rw [hsig] at heq
      simp only [Except.ok.injEq, Prod.mk.injEq] at heq
      obtain ⟨h1, h2, h3⟩ := heq
      subst h1
      subst h3
      have hrec := ih ⟨c.name, c.count - 1, rest⟩ rfl
        (by simp at hc ⊢; omega)
      rw [hrec]

/-- Claim C9: `cv_broadcast` by a caller holding the paired lock, on a cv
satisfying the cv invariant `count = length(queue)`, repeatedly performs
`cv_signal` until the count is zero; on return the count is 0, the waiter
queue is empty, the paired lock is untouched, and the waiters were woken
one at a time in FIFO order (the wake list equals the original queue). -/
theorem c9_broadcast_drains_fifo (t : Thread) (c : CV) (l : Lock)
    (hold : l.lock_holder = some t)
    (hinv : c.count = (c.thread_queue.length : Int)) :
    cv_broadcast t (some c) (some l) =
      Except.ok (⟨c.name, 0, []⟩, l, c.thread_queue) := by
  have hloop := cv_broadcastLoop_drains t l hold c.thread_queue c rfl hinv
  simp [cv_broadcast, lock_do_i_hold, hold, hloop]

/-- Witness for C9: broadcast on a cv with waiters `[4, 5]` and count 2
wakes 4 then 5 and leaves count 0 and an empty queue. -/
theorem c9_broadcast_drains_fifo_witness :
    cv_broadcast 1 (some ⟨"cv", 2, [4, 5]⟩) (some ⟨"L", 1, some 1⟩) =
      Except.ok (⟨"cv", 0, []⟩, ⟨"L", 1, some 1⟩, [4, 5]) :=
  c9_broadcast_drains_fifo 1 ⟨"cv", 2, [4, 5]⟩ ⟨"L", 1, some 1⟩ rfl (by decide)

/-- Claim C10: `cv_broadcast` with no waiters (count 0, empty queue) by a
caller holding the paired lock is a no-op: the loop runs zero iterations,
no context is woken, and the cv, its queue and the paired lock are returned
unchanged — unlike `cv_signal`, it is safe to call with no waiters. -/
theorem c10_broadcast_no_waiters_noop (t : Thread) (c : CV) (l : Lock)
    (hold : l.lock_holder = some t) (hc : c.count = 0)
    (hq : c.thread_queue = []) :
    cv_broadcast t (some c) (some l) = Except.ok (c, l, []) := by
  have hloop : cv_broadcastLoop t l c = Except.ok (c, []) := by
    unfold cv_broadcastLoop
    rw [dif_neg (by omega)]
  simp [cv_broadcast, lock_do_i_hold, hold, hloop, hc, hq]

/-- Witness for C10: broadcast on a cv with count 0 and empty queue returns
it unchanged, wakes nobody and leaves the lock as it was. -/
theorem c10_broadcast_no_waiters_noop_witness :
    cv_broadcast 1 (some ⟨"cv", 0, []⟩) (some ⟨"L", 1, some 1⟩) =
      Except.ok (⟨"cv", 0, []⟩, ⟨"L", 1, some 1⟩, []) :=
  c10_broadcast_no_waiters_noop 1 ⟨"cv", 0, []⟩ ⟨"L", 1, some 1⟩ rfl rfl rfl
